import Mathlib

/-!
Shallow embedding of the request-validation layer of the tumor-digital-twin
gRPC front end (`src/grpc_server.cpp`, functions `validateSimulationRequest`,
`validateSimulationParameters`, `validatePatientData`).

Modelling conventions:
* Protobuf sub-messages become `Option` fields; the proto3 getter on an unset
  sub-message returns the default instance, modelled with `Option.getD default`.
* Proto string fields become `String`; `empty()` becomes `String.isEmpty`.
* Proto `int32` fields become `Int` (theorems that depend on the 32-bit range
  take the range as a hypothesis); the C++ `double` fields are compared only
  against the exactly representable constants 0.0 and 1.0, so finite doubles
  are modelled as `Rat` with exact order (NaN/infinity are outside the model).
* The C++ out-parameter `std::string& error_msg` is modelled by threading the
  incoming string through and returning `Bool × String`: the bool is the
  return value, the string is the value of `error_msg` after the call.
* The `int64_t` product of the grid dimensions is modelled with `wrap64`,
  wraparound at 64 bits in twos-complement representation (signed overflow is
  undefined behaviour in C++; wraparound is what common targets do).
-/

namespace TumorDTwin

/-- Wraparound of an integer into the signed 64-bit range, modelling C++
`int64_t` arithmetic results on common twos-complement targets. -/
def wrap64 (n : Int) : Int :=
  (n + 2 ^ 63) % 2 ^ 64 - 2 ^ 63

/-- `SimulationParameters` message: the fields read by the validator, plus the
unconstrained GPU flag. `int32` fields are `Int`, `double` fields are `Rat`. -/
structure SimulationParameters where
  grid_size_x : Int
  grid_size_y : Int
  grid_size_z : Int
  spatial_resolution : Rat
  num_steps : Int
  time_step : Rat
  mutation_rate : Rat
  division_rate : Rat
  death_rate : Rat
  migration_rate : Rat
  oxygen_diffusion_coeff : Rat
  glucose_diffusion_coeff : Rat
  checkpoint_interval : Int
  num_threads : Int
  num_mpi_ranks : Int
  use_gpu : Bool
deriving DecidableEq

/-- `DICOMData` sub-message: the fields read by the validator. -/
structure DICOMData where
  patient_id : String
  dicom_archive : String
  modality : String
deriving DecidableEq

instance : Inhabited DICOMData := ⟨⟨"", "", ""⟩⟩

/-- `VCFData` sub-message: the sample identifier and the number of entries of
the repeated `mutations` field (the validator only reads `mutations_size()`). -/
structure VCFData where
  sample_id : String
  mutations_size : Nat
deriving DecidableEq

instance : Inhabited VCFData := ⟨⟨"", 0⟩⟩

/-- `GenomicData` sub-message: the fields read by the validator. -/
structure GenomicData where
  sample_id : String
  bam_data : String
  fastq_data : String
deriving DecidableEq

instance : Inhabited GenomicData := ⟨⟨"", "", ""⟩⟩

/-- `PatientData` message: its own top-level patient identifier and the three
optional data-source sub-messages. -/
structure PatientData where
  patient_id : String
  dicom : Option DICOMData
  vcf : Option VCFData
  genomic_sequences : Option GenomicData
deriving DecidableEq

/-- `SimulationRequest` message: top-level patient identifier, display name,
optional patient data and optional simulation parameters. -/
structure SimulationRequest where
  patient_id : String
  simulation_name : String
  data : Option PatientData
  params : Option SimulationParameters
deriving DecidableEq

/-- `data.has_dicom() && !data.dicom().dicom_archive().empty()` from
`validatePatientData` (grpc_server.cpp:297). -/
def hasDicom (data : PatientData) : Bool :=
  data.dicom.isSome && !(data.dicom.getD default).dicom_archive.isEmpty

/-- `data.has_vcf() && data.vcf().mutations_size() > 0`
(grpc_server.cpp:298). -/
def hasVcf (data : PatientData) : Bool :=
  data.vcf.isSome && decide ((data.vcf.getD default).mutations_size > 0)

/-- `data.has_genomic_sequences() && (!bam_data().empty() || !fastq_data().empty())`
(grpc_server.cpp:299-301). -/
def hasGenomic (data : PatientData) : Bool :=
  data.genomic_sequences.isSome &&
    (!(data.genomic_sequences.getD default).bam_data.isEmpty ||
     !(data.genomic_sequences.getD default).fastq_data.isEmpty)

/-- `validatePatientData` (grpc_server.cpp:292-333): presence flags, the
at-least-one-source check, then per-source identifier checks in
DICOM → VCF → genomic order. Returns the C++ bool result paired with the
value of `error_msg` after the call. -/
def validatePatientData (data : PatientData) (error_msg : String) : Bool × String :=
  let has_dicom := hasDicom data
  let has_vcf := hasVcf data
  let has_genomic := hasGenomic data
  if !has_dicom && !has_vcf && !has_genomic then
    (false, "At least one data source (DICOM, VCF, or genomic sequences) is required")
  else if has_dicom && (data.dicom.getD default).patient_id.isEmpty then
    (false, "DICOM patient ID is required")
  else if has_vcf && (data.vcf.getD default).sample_id.isEmpty then
    (false, "VCF sample ID is required")
  else if has_genomic && (data.genomic_sequences.getD default).sample_id.isEmpty then
    (false, "Genomic sequence sample ID is required")
  else
    (true, error_msg)

/-- The computation of `total_cells` in `validateSimulationParameters`
(grpc_server.cpp:214-216): the three `int32` dimensions are widened to
`int64_t` and multiplied left-to-right in `int64_t` arithmetic. -/
def totalCells (params : SimulationParameters) : Int :=
  wrap64 (wrap64 (params.grid_size_x * params.grid_size_y) * params.grid_size_z)

/-- `validateSimulationParameters` (grpc_server.cpp:202-290): the fourteen
range checks in source order, first failure wins. Returns the C++ bool result
paired with the value of `error_msg` after the call. -/
def validateSimulationParameters (params : SimulationParameters) (error_msg : String) :
    Bool × String :=
  if params.grid_size_x ≤ 0 ∨ params.grid_size_y ≤ 0 ∨ params.grid_size_z ≤ 0 then
    (false, "Grid dimensions must be positive")
  else if totalCells params > 1000 * 1000 * 1000 then
    (false, "Grid size too large (exceeds 1 billion cells)")
  else if params.spatial_resolution ≤ 0 then
    (false, "Spatial resolution must be positive")
  else if params.num_steps ≤ 0 then
    (false, "Number of steps must be positive")
  else if params.time_step ≤ 0 then
    (false, "Time step must be positive")
  else if params.mutation_rate < 0 ∨ params.mutation_rate > 1 then
    (false, "Mutation rate must be between 0 and 1")
  else if params.division_rate < 0 then
    (false, "Division rate must be non-negative")
  else if params.death_rate < 0 then
    (false, "Death rate must be non-negative")
  else if params.migration_rate < 0 then
    (false, "Migration rate must be non-negative")
  else if params.oxygen_diffusion_coeff < 0 then
    (false, "Oxygen diffusion coefficient must be non-negative")
  else if params.glucose_diffusion_coeff < 0 then
    (false, "Glucose diffusion coefficient must be non-negative")
  else if params.checkpoint_interval < 0 then
    (false, "Checkpoint interval must be non-negative")
  else if params.num_threads < 0 then
    (false, "Number of threads must be non-negative")
  else if params.num_mpi_ranks < 0 then
    (false, "Number of MPI ranks must be non-negative")
  else
    (true, error_msg)

/-- `validateSimulationRequest` (grpc_server.cpp:169-200): patient id, data
presence, data validity, params presence, params validity, in that order. -/
def validateSimulationRequest (request : SimulationRequest) (error_msg : String) :
    Bool × String :=
  if request.patient_id.isEmpty then
    (false, "Patient ID is required")
  else
    match request.data with
    | none => (false, "Patient data is required")
    | some d =>
      match validatePatientData d error_msg with
      | (false, m) => (false, m)
      | (true, m) =>
        match request.params with
        | none => (false, "Simulation parameters are required")
        | some p =>
          match validateSimulationParameters p m with
          | (false, m2) => (false, m2)
          | (true, m2) => (true, m2)

/-- Modelled from the spec, section 4.1, operation `validateSimulationParameters`:
the fourteen ordered rules with the predicates as the spec words them, first
failure wins; rule 2 uses the true mathematical product of the three grid
dimensions (the spec asserts the computation is wide enough not to overflow).
`none` means all rules pass. -/
def specParamVerdict (p : SimulationParameters) : Option String :=
  if ¬(0 < p.grid_size_x ∧ 0 < p.grid_size_y ∧ 0 < p.grid_size_z) then
    some "Grid dimensions must be positive"
  else if ¬(p.grid_size_x * p.grid_size_y * p.grid_size_z ≤ 1000000000) then
    some "Grid size too large (exceeds 1 billion cells)"
  else if ¬(0 < p.spatial_resolution) then
    some "Spatial resolution must be positive"
  else if ¬(0 < p.num_steps) then
    some "Number of steps must be positive"
  else if ¬(0 < p.time_step) then
    some "Time step must be positive"
  else if ¬(0 ≤ p.mutation_rate ∧ p.mutation_rate ≤ 1) then
    some "Mutation rate must be between 0 and 1"
  else if ¬(0 ≤ p.division_rate) then
    some "Division rate must be non-negative"
  else if ¬(0 ≤ p.death_rate) then
    some "Death rate must be non-negative"
  else if ¬(0 ≤ p.migration_rate) then
    some "Migration rate must be non-negative"
  else if ¬(0 ≤ p.oxygen_diffusion_coeff) then
    some "Oxygen diffusion coefficient must be non-negative"
  else if ¬(0 ≤ p.glucose_diffusion_coeff) then
    some "Glucose diffusion coefficient must be non-negative"
  else if ¬(0 ≤ p.checkpoint_interval) then
    some "Checkpoint interval must be non-negative"
  else if ¬(0 ≤ p.num_threads) then
    some "Number of threads must be non-negative"
  else if ¬(0 ≤ p.num_mpi_ranks) then
    some "Number of MPI ranks must be non-negative"
  else
    none

/-- The verdict of `validateSimulationParameters` as an optional first-failure
message, mirroring the if-chain of grpc_server.cpp:202-290 condition by
condition. `none` means the function returns true. -/
def codeParamVerdict (p : SimulationParameters) : Option String :=
  if p.grid_size_x ≤ 0 ∨ p.grid_size_y ≤ 0 ∨ p.grid_size_z ≤ 0 then
    some "Grid dimensions must be positive"
  else if totalCells p > 1000 * 1000 * 1000 then
    some "Grid size too large (exceeds 1 billion cells)"
  else if p.spatial_resolution ≤ 0 then some "Spatial resolution must be positive"
  else if p.num_steps ≤ 0 then some "Number of steps must be positive"
  else if p.time_step ≤ 0 then some "Time step must be positive"
  else if p.mutation_rate < 0 ∨ p.mutation_rate > 1 then
    some "Mutation rate must be between 0 and 1"
  else if p.division_rate < 0 then some "Division rate must be non-negative"
  else if p.death_rate < 0 then some "Death rate must be non-negative"
  else if p.migration_rate < 0 then some "Migration rate must be non-negative"
  else if p.oxygen_diffusion_coeff < 0 then
    some "Oxygen diffusion coefficient must be non-negative"
  else if p.glucose_diffusion_coeff < 0 then
    some "Glucose diffusion coefficient must be non-negative"
  else if p.checkpoint_interval < 0 then some "Checkpoint interval must be non-negative"
  else if p.num_threads < 0 then some "Number of threads must be non-negative"
  else if p.num_mpi_ranks < 0 then some "Number of MPI ranks must be non-negative"
  else none

/-- The verdict of `validatePatientData` as an optional first-failure message,
mirroring the condition chain of grpc_server.cpp:292-333. -/
def codePDVerdict (data : PatientData) : Option String :=
  let has_dicom := hasDicom data
  let has_vcf := hasVcf data
  let has_genomic := hasGenomic data
  if !has_dicom && !has_vcf && !has_genomic then
    some "At least one data source (DICOM, VCF, or genomic sequences) is required"
  else if has_dicom && (data.dicom.getD default).patient_id.isEmpty then
    some "DICOM patient ID is required"
  else if has_vcf && (data.vcf.getD default).sample_id.isEmpty then
    some "VCF sample ID is required"
  else if has_genomic && (data.genomic_sequences.getD default).sample_id.isEmpty then
    some "Genomic sequence sample ID is required"
  else none

/-- The verdict of `validateSimulationRequest` as an optional first-failure
message, mirroring the check order of grpc_server.cpp:169-200. -/
def codeReqVerdict (r : SimulationRequest) : Option String :=
  if r.patient_id.isEmpty then some "Patient ID is required"
  else
    r.data.elim (some "Patient data is required") fun d =>
      (codePDVerdict d).elim
        (r.params.elim (some "Simulation parameters are required") fun p =>
          codeParamVerdict p)
        (fun m => some m)

/-- Replace the top-level patient identifier of a request. -/
def setRequestPatientId (r : SimulationRequest) (s : String) : SimulationRequest :=
  { r with patient_id := s }

/-- Replace the patient identifier inside the DICOM sub-message, when present. -/
def setDicomPatientId (data : PatientData) (s : String) : PatientData :=
  { data with dicom := data.dicom.map fun d => { d with patient_id := s } }

/-- Replace the sample identifier inside the VCF sub-message, when present. -/
def setVcfSampleId (data : PatientData) (s : String) : PatientData :=
  { data with vcf := data.vcf.map fun v => { v with sample_id := s } }

/-- Replace the sample identifier inside the genomic sub-message, when present. -/
def setGenomicSampleId (data : PatientData) (s : String) : PatientData :=
  { data with genomic_sequences := data.genomic_sequences.map fun g => { g with sample_id := s } }

/-- Replace the DICOM patient identifier inside the patient data of a request. -/
def setRequestDicomPatientId (r : SimulationRequest) (s : String) : SimulationRequest :=
  { r with data := r.data.map fun d => setDicomPatientId d s }

/-- Everything `validatePatientData` reads from its argument: the three
presence flags and the emptiness of the three per-source identifiers. -/
def pdKey (data : PatientData) : Bool × Bool × Bool × Bool × Bool × Bool :=
  (hasDicom data, hasVcf data, hasGenomic data,
   (data.dicom.getD default).patient_id.isEmpty,
   (data.vcf.getD default).sample_id.isEmpty,
   (data.genomic_sequences.getD default).sample_id.isEmpty)

/-- A parameter bundle passing all fourteen checks (integer-valued rates so
that concrete evaluation reduces). -/
def validParams : SimulationParameters :=
  { grid_size_x := 100, grid_size_y := 100, grid_size_z := 100,
    spatial_resolution := 10, num_steps := 100, time_step := 1,
    mutation_rate := 0, division_rate := 1,
    death_rate := 1, migration_rate := 1,
    oxygen_diffusion_coeff := 1, glucose_diffusion_coeff := 1,
    checkpoint_interval := 10, num_threads := 4, num_mpi_ranks := 1,
    use_gpu := false }

/-- Strictly positive 32-bit grid dimensions 2^21, 2^21, 2^22 whose true
product is 2^64: the widened `int64_t` product wraps to 0. -/
def overflowParams : SimulationParameters :=
  { validParams with grid_size_x := 2097152, grid_size_y := 2097152, grid_size_z := 4194304 }

/-- Patient data carrying only a DICOM source with a non-empty archive and
patient identifier. -/
def validPD : PatientData :=
  { patient_id := "test_patient_001",
    dicom := some { patient_id := "test_patient_001",
                    dicom_archive := "dummy_dicom_data", modality := "CT" },
    vcf := none, genomic_sequences := none }

/-- Patient data with no source present at all. -/
def emptyPD : PatientData :=
  { patient_id := "test_patient_001", dicom := none, vcf := none, genomic_sequences := none }

/-- A request that passes every validation rule. -/
def validReq : SimulationRequest :=
  { patient_id := "p1", simulation_name := "Test Simulation",
    data := some validPD, params := some validParams }

/-- Patient data whose only present source is a DICOM message lacking its
patient identifier. -/
def pdDicomNoId : PatientData :=
  { patient_id := "q", dicom := some ⟨"", "dummy_dicom_data", "CT"⟩,
    vcf := none, genomic_sequences := none }

/-- Patient data whose only present source is a VCF message lacking its
sample identifier. -/
def pdVcfNoId : PatientData :=
  { patient_id := "q", dicom := none, vcf := some ⟨"", 2⟩, genomic_sequences := none }

/-- Patient data whose only present source is a genomic message lacking its
sample identifier. -/
def pdGenomicNoId : PatientData :=
  { patient_id := "q", dicom := none, vcf := none, genomic_sequences := some ⟨"", "b", ""⟩ }

/-- An integer in the signed 64-bit range is unchanged by 64-bit wraparound. -/
theorem wrap64_eq_self {n : Int} (h1 : -(2 ^ 63) ≤ n) (h2 : n < 2 ^ 63) : wrap64 n = n := by
  unfold wrap64
  have h3 : 0 ≤ n + 2 ^ 63 := by omega
  have h4 : n + 2 ^ 63 < 2 ^ 64 := by omega
  rw [Int.emod_eq_of_lt h3 h4]
  omega

/-- `Option.elim` distributes over an if-then-else scrutinee. -/
theorem elim_ite (c : Prop) [Decidable c] (a b : Option String) (z : Bool × String)
    (f : String → Bool × String) :
    (if c then a else b).elim z f = if c then a.elim z f else b.elim z f :=
  apply_ite (fun o => Option.elim o z f) c a b

/-- `validateSimulationParameters` returns true with `error_msg` untouched when
`codeParamVerdict` is `none`, and false with the verdict message otherwise. -/
theorem vsp_eq_verdict (p : SimulationParameters) (e : String) :
    validateSimulationParameters p e =
      (codeParamVerdict p).elim (true, e) (fun m => (false, m)) := by
  unfold validateSimulationParameters codeParamVerdict
  simp only [elim_ite, Option.elim_some, Option.elim_none]

/-- `validatePatientData` returns true with `error_msg` untouched when
`codePDVerdict` is `none`, and false with the verdict message otherwise. -/
theorem vpd_eq_verdict (data : PatientData) (e : String) :
    validatePatientData data e =
      (codePDVerdict data).elim (true, e) (fun m => (false, m)) := by
  unfold validatePatientData codePDVerdict
  simp only [elim_ite, Option.elim_some, Option.elim_none]

/-- `validateSimulationRequest` returns true with `error_msg` untouched when
`codeReqVerdict` is `none`, and false with the verdict message otherwise. -/
theorem vsr_eq_verdict (r : SimulationRequest) (e : String) :
    validateSimulationRequest r e =
      (codeReqVerdict r).elim (true, e) (fun m => (false, m)) := by
  unfold validateSimulationRequest codeReqVerdict
  by_cases hid : r.patient_id.isEmpty
  · simp only [hid, if_true, Option.elim_some]
  · simp only [hid, Bool.false_eq_true, if_false]
    cases hd : r.data with
    | none => rfl
    | some d =>
      dsimp only [Option.elim_some]
      rw [vpd_eq_verdict d e]
      cases hpd : codePDVerdict d with
      | some m => rfl
      | none =>
        dsimp only [Option.elim_none]
        cases hp : r.params with
        | none => rfl
        | some p =>
          dsimp only [Option.elim_some]
          rw [vsp_eq_verdict p e]
          cases hv : codeParamVerdict p <;> rfl

/-- `validatePatientData` reads nothing of its argument beyond `pdKey`. -/
theorem validatePatientData_congr {d1 d2 : PatientData} (e : String)
    (h : pdKey d1 = pdKey d2) :
    validatePatientData d1 e = validatePatientData d2 e := by
  unfold pdKey at h
  simp only [Prod.mk.injEq] at h
  obtain ⟨h1, h2, h3, h4, h5, h6⟩ := h
  unfold validatePatientData
  rw [h1, h2, h3, h4, h5, h6]

/-- C10: validatePatientData never examines the top-level patient_id field of
the PatientData bundle: any two bundles agreeing on the three source
sub-messages get the identical verdict and reason. -/
theorem C10_pd_top_level_id_ignored (d1 d2 : PatientData) (e : String)
    (hdicom : d1.dicom = d2.dicom) (hvcf : d1.vcf = d2.vcf)
    (hgen : d1.genomic_sequences = d2.genomic_sequences) :
    validatePatientData d1 e = validatePatientData d2 e := by
  obtain ⟨p1, di1, v1, g1⟩ := d1
  obtain ⟨p2, di2, v2, g2⟩ := d2
  dsimp only at hdicom hvcf hgen
  subst hdicom; subst hvcf; subst hgen
  rfl

theorem C10_witness :
    validatePatientData { validPD with patient_id := "" } "x" =
      validatePatientData { validPD with patient_id := "other" } "x" :=
  C10_pd_top_level_id_ignored _ _ "x" rfl rfl rfl

/-- C8: validateSimulationRequest is deterministic and stateless: validating
the identical request twice yields the identical verdict, including when the
second call receives the error-message string left by the first call. -/
theorem C8_idempotent (r : SimulationRequest) (e : String) :
    validateSimulationRequest r e = validateSimulationRequest r e ∧
    validateSimulationRequest r (validateSimulationRequest r e).2 =
      validateSimulationRequest r e := by
  refine ⟨rfl, ?_⟩
  rw [vsr_eq_verdict r e]
  cases h : codeReqVerdict r with
  | none =>
    dsimp only [Option.elim_none]
    rw [vsr_eq_verdict r e, h]
    rfl
  | some m =>
    dsimp only [Option.elim_some]
    rw [vsr_eq_verdict r m, h]
    rfl

/-- C9: for each of the three validators, on success the error-message
parameter is returned unchanged, and on failure its final value is fully
determined by the validated input (independent of the incoming string). -/
theorem C9_error_msg_frame (e eX : String) :
    (forall p : SimulationParameters,
      ((validateSimulationParameters p e).1 = true →
        (validateSimulationParameters p e).2 = e) ∧
      ((validateSimulationParameters p e).1 = false →
        (validateSimulationParameters p e).2 = (validateSimulationParameters p eX).2)) ∧
    (forall d : PatientData,
      ((validatePatientData d e).1 = true → (validatePatientData d e).2 = e) ∧
      ((validatePatientData d e).1 = false →
        (validatePatientData d e).2 = (validatePatientData d eX).2)) ∧
    (forall r : SimulationRequest,
      ((validateSimulationRequest r e).1 = true → (validateSimulationRequest r e).2 = e) ∧
      ((validateSimulationRequest r e).1 = false →
        (validateSimulationRequest r e).2 = (validateSimulationRequest r eX).2)) := by
  refine ⟨fun p => ?_, fun d => ?_, fun r => ?_⟩
  · rw [vsp_eq_verdict p e, vsp_eq_verdict p eX]
    cases h : codeParamVerdict p <;> simp
  · rw [vpd_eq_verdict d e, vpd_eq_verdict d eX]
    cases h : codePDVerdict d <;> simp
  · rw [vsr_eq_verdict r e, vsr_eq_verdict r eX]
    cases h : codeReqVerdict r <;> simp

theorem C9_witness :
    (validateSimulationParameters validParams "prev").2 = "prev" ∧
    (validatePatientData emptyPD "prev").2 = (validatePatientData emptyPD "other").2 :=
  ⟨((C9_error_msg_frame "prev" "other").1 validParams).1 (by decide),
   ((C9_error_msg_frame "prev" "other").2.1 emptyPD).2 (by decide)⟩

/-- C3 is a code bug: grid dimensions 2^21, 2^21, 2^22 are strictly positive
32-bit values whose true product 2^64 exceeds one billion, yet the widened
int64 product wraps to 0, so the oversized grid is accepted instead of being
rejected with the grid-size message. -/
theorem C3_overflow_accepts_huge_grid :
    (0 < overflowParams.grid_size_x ∧ overflowParams.grid_size_x < 2 ^ 31) ∧
    (0 < overflowParams.grid_size_y ∧ overflowParams.grid_size_y < 2 ^ 31) ∧
    (0 < overflowParams.grid_size_z ∧ overflowParams.grid_size_z < 2 ^ 31) ∧
    overflowParams.grid_size_x * overflowParams.grid_size_y * overflowParams.grid_size_z >
      1000000000 ∧
    totalCells overflowParams = 0 ∧
    validateSimulationParameters overflowParams "e" = (true, "e") := by
  decide

theorem vpd_true_iff (d : PatientData) (e : String) :
    (validatePatientData d e).1 = true ↔ codePDVerdict d = none := by
  rw [vpd_eq_verdict]
  cases h : codePDVerdict d <;> simp

theorem vsp_true_iff (p : SimulationParameters) (e : String) :
    (validateSimulationParameters p e).1 = true ↔ codeParamVerdict p = none := by
  rw [vsp_eq_verdict]
  cases h : codeParamVerdict p <;> simp

theorem vpd_false_iff (d : PatientData) (e m : String) :
    validatePatientData d e = (false, m) ↔ codePDVerdict d = some m := by
  rw [vpd_eq_verdict]
  cases h : codePDVerdict d <;> simp

theorem vsp_false_iff (p : SimulationParameters) (e m : String) :
    validateSimulationParameters p e = (false, m) ↔ codeParamVerdict p = some m := by
  rw [vsp_eq_verdict]
  cases h : codeParamVerdict p <;> simp

/-- C1: the five checks of validateSimulationRequest run in order, stopping at
the first failure: empty patient id, missing data, data invalid (with the
reason produced by validatePatientData), missing parameters, parameters
invalid (with the reason produced by validateSimulationParameters); if all
five pass the verdict is success with the error message untouched. -/
theorem C1_request_check_order (r : SimulationRequest) (e : String) :
    (r.patient_id.isEmpty = true →
      validateSimulationRequest r e = (false, "Patient ID is required")) ∧
    (r.patient_id.isEmpty = false → r.data = none →
      validateSimulationRequest r e = (false, "Patient data is required")) ∧
    (forall d m, r.patient_id.isEmpty = false → r.data = some d →
      validatePatientData d e = (false, m) →
      validateSimulationRequest r e = (false, m)) ∧
    (forall d, r.patient_id.isEmpty = false → r.data = some d →
      (validatePatientData d e).1 = true → r.params = none →
      validateSimulationRequest r e = (false, "Simulation parameters are required")) ∧
    (forall d p m, r.patient_id.isEmpty = false → r.data = some d →
      (validatePatientData d e).1 = true → r.params = some p →
      validateSimulationParameters p e = (false, m) →
      validateSimulationRequest r e = (false, m)) ∧
    (forall d p, r.patient_id.isEmpty = false → r.data = some d →
      (validatePatientData d e).1 = true → r.params = some p →
      (validateSimulationParameters p e).1 = true →
      validateSimulationRequest r e = (true, e)) := by
  refine ⟨?_, ?_, ?_, ?_, ?_, ?_⟩
  · intro hid
    rw [vsr_eq_verdict]
    unfold codeReqVerdict
    rw [if_pos hid]
    rfl
  · intro hid hd
    rw [vsr_eq_verdict]
    unfold codeReqVerdict
    rw [if_neg (by simp [hid]), hd]
    rfl
  · intro d m hid hd hpd
    rw [vpd_false_iff] at hpd
    rw [vsr_eq_verdict]
    unfold codeReqVerdict
    rw [if_neg (by simp [hid]), hd]
    simp only [Option.elim_some]
    rw [hpd]
    rfl
  · intro d hid hd hpd hp
    rw [vpd_true_iff] at hpd
    rw [vsr_eq_verdict]
    unfold codeReqVerdict
    rw [if_neg (by simp [hid]), hd]
    simp only [Option.elim_some]
    rw [hpd, hp]
    rfl
  · intro d p m hid hd hpd hp hsp
    rw [vpd_true_iff] at hpd
    rw [vsp_false_iff] at hsp
    rw [vsr_eq_verdict]
    unfold codeReqVerdict
    rw [if_neg (by simp [hid]), hd]
    simp only [Option.elim_some]
    rw [hpd, hp]
    simp only [Option.elim_none, Option.elim_some]
    rw [hsp]
    rfl
  · intro d p hid hd hpd hp hsp
    rw [vpd_true_iff] at hpd
    rw [vsp_true_iff] at hsp
    rw [vsr_eq_verdict]
    unfold codeReqVerdict
    rw [if_neg (by simp [hid]), hd]
    simp only [Option.elim_some]
    rw [hpd, hp]
    simp only [Option.elim_none, Option.elim_some]
    rw [hsp]
    rfl

theorem C1_witness :
    validateSimulationRequest { validReq with patient_id := "" } "x" =
        (false, "Patient ID is required") ∧
    validateSimulationRequest { validReq with data := none } "x" =
        (false, "Patient data is required") ∧
    validateSimulationRequest { validReq with data := some emptyPD } "x" =
        (false, "At least one data source (DICOM, VCF, or genomic sequences) is required") ∧
    validateSimulationRequest { validReq with params := none } "x" =
        (false, "Simulation parameters are required") ∧
    validateSimulationRequest validReq "x" = (true, "x") :=
  ⟨(C1_request_check_order _ "x").1 (by decide),
   (C1_request_check_order _ "x").2.1 (by decide) rfl,
   (C1_request_check_order _ "x").2.2.1 emptyPD _ (by decide) rfl (by decide),
   (C1_request_check_order _ "x").2.2.2.1 validPD (by decide) rfl (by decide) rfl,
   (C1_request_check_order _ "x").2.2.2.2.2 validPD validParams (by decide) rfl (by decide) rfl
     (by decide)⟩

/-- Under the no-overflow hypotheses the code verdict coincides with the
verdict of the spec-worded rule chain. -/
theorem codeParamVerdict_eq_spec (p : SimulationParameters)
    (h1 : -(2 ^ 63) ≤ p.grid_size_x * p.grid_size_y * p.grid_size_z)
    (h2 : p.grid_size_x * p.grid_size_y * p.grid_size_z < 2 ^ 63) :
    codeParamVerdict p = specParamVerdict p := by
  unfold codeParamVerdict specParamVerdict
  by_cases hg : p.grid_size_x ≤ 0 ∨ p.grid_size_y ≤ 0 ∨ p.grid_size_z ≤ 0
  · rw [if_pos hg, if_pos (by omega :
      ¬(0 < p.grid_size_x ∧ 0 < p.grid_size_y ∧ 0 < p.grid_size_z))]
  · have hx : 0 < p.grid_size_x := by omega
    have hy : 0 < p.grid_size_y := by omega
    have hz : 0 < p.grid_size_z := by omega
    rw [if_neg hg, if_neg (by omega :
      ¬¬(0 < p.grid_size_x ∧ 0 < p.grid_size_y ∧ 0 < p.grid_size_z))]
    have hxy0 : 0 < p.grid_size_x * p.grid_size_y := mul_pos hx hy
    have hxyup : p.grid_size_x * p.grid_size_y ≤
        p.grid_size_x * p.grid_size_y * p.grid_size_z :=
      le_mul_of_one_le_right (le_of_lt hxy0) hz
    have hinner : wrap64 (p.grid_size_x * p.grid_size_y) =
        p.grid_size_x * p.grid_size_y :=
      wrap64_eq_self (by linarith) (by linarith)
    have houter : wrap64 (p.grid_size_x * p.grid_size_y * p.grid_size_z) =
        p.grid_size_x * p.grid_size_y * p.grid_size_z :=
      wrap64_eq_self h1 h2
    have ht : totalCells p = p.grid_size_x * p.grid_size_y * p.grid_size_z := by
      unfold totalCells
      rw [hinner, houter]
    rw [ht]
    by_cases hb : p.grid_size_x * p.grid_size_y * p.grid_size_z > 1000 * 1000 * 1000
    · rw [if_pos hb, if_pos (not_le.mpr (by linarith :
        (1000000000 : Int) < p.grid_size_x * p.grid_size_y * p.grid_size_z))]
    · rw [if_neg hb, if_neg (not_not.mpr (by linarith [not_lt.mp hb] :
        p.grid_size_x * p.grid_size_y * p.grid_size_z ≤ 1000000000))]
      simp only [not_lt, not_le, not_and_or, gt_iff_lt]

/-- C2: validateSimulationParameters implements the spec-worded ordered rule
chain (first failure wins, exact messages, exact comparisons against 0 and 1)
whenever the true grid product fits the widened 64-bit computation; and a
nonpositive grid dimension always yields the grid-dimensions message, before
the product bound is consulted. -/
theorem C2_param_check_order (p : SimulationParameters) (e : String) :
    (-(2 ^ 63) ≤ p.grid_size_x * p.grid_size_y * p.grid_size_z →
      p.grid_size_x * p.grid_size_y * p.grid_size_z < 2 ^ 63 →
      validateSimulationParameters p e =
        (specParamVerdict p).elim (true, e) (fun m => (false, m))) ∧
    (p.grid_size_x ≤ 0 ∨ p.grid_size_y ≤ 0 ∨ p.grid_size_z ≤ 0 →
      validateSimulationParameters p e = (false, "Grid dimensions must be positive")) := by
  constructor
  · intro h1 h2
    rw [vsp_eq_verdict, codeParamVerdict_eq_spec p h1 h2]
  · intro hg
    rw [vsp_eq_verdict]
    unfold codeParamVerdict
    rw [if_pos hg]
    rfl

theorem C2_witness :
    (validateSimulationParameters validParams "x" =
       (specParamVerdict validParams).elim (true, "x") (fun m => (false, m))) ∧
    (validateSimulationParameters { validParams with mutation_rate := 2 } "x" =
       (specParamVerdict { validParams with mutation_rate := 2 }).elim
         (true, "x") (fun m => (false, m))) ∧
    (validateSimulationParameters { validParams with grid_size_x := -3 } "x" =
       (false, "Grid dimensions must be positive")) :=
  ⟨(C2_param_check_order validParams "x").1 (by decide) (by decide),
   (C2_param_check_order _ "x").1 (by decide) (by decide),
   (C2_param_check_order { validParams with grid_size_x := -3 } "x").2 (by decide)⟩

/-- C6: in an otherwise-valid parameter bundle, mutation_rate 1.5 is rejected
with the mutation-rate message, while 1.0 and 0.0 both pass every check; the
interval bound is inclusive at both endpoints and compared exactly. -/
theorem C6_mutation_rate_bounds (p : SimulationParameters) (e : String)
    (hx : 0 < p.grid_size_x) (hy : 0 < p.grid_size_y) (hz : 0 < p.grid_size_z)
    (hcells : totalCells p ≤ 1000 * 1000 * 1000)
    (hres : 0 < p.spatial_resolution) (hsteps : 0 < p.num_steps) (hts : 0 < p.time_step)
    (hdiv : 0 ≤ p.division_rate) (hdeath : 0 ≤ p.death_rate)
    (hmig : 0 ≤ p.migration_rate) (ho2 : 0 ≤ p.oxygen_diffusion_coeff)
    (hglu : 0 ≤ p.glucose_diffusion_coeff) (hcp : 0 ≤ p.checkpoint_interval)
    (hth : 0 ≤ p.num_threads) (hmpi : 0 ≤ p.num_mpi_ranks) :
    (p.mutation_rate = 3 / 2 →
      validateSimulationParameters p e = (false, "Mutation rate must be between 0 and 1")) ∧
    (p.mutation_rate = 1 → validateSimulationParameters p e = (true, e)) ∧
    (p.mutation_rate = 0 → validateSimulationParameters p e = (true, e)) := by
  have hgrid : ¬(p.grid_size_x ≤ 0 ∨ p.grid_size_y ≤ 0 ∨ p.grid_size_z ≤ 0) := by omega
  refine ⟨?_, ?_, ?_⟩ <;> intro hm <;>
    (rw [vsp_eq_verdict]
     unfold codeParamVerdict
     rw [if_neg hgrid, if_neg (not_lt.mpr hcells), if_neg (not_le.mpr hres),
         if_neg (not_le.mpr hsteps), if_neg (not_le.mpr hts), hm])
  · rw [if_pos (Or.inr (by norm_num))]
    rfl
  · rw [if_neg (by norm_num), if_neg (not_lt.mpr hdiv), if_neg (not_lt.mpr hdeath),
        if_neg (not_lt.mpr hmig), if_neg (not_lt.mpr ho2), if_neg (not_lt.mpr hglu),
        if_neg (not_lt.mpr hcp), if_neg (not_lt.mpr hth), if_neg (not_lt.mpr hmpi)]
    rfl
  · rw [if_neg (by norm_num), if_neg (not_lt.mpr hdiv), if_neg (not_lt.mpr hdeath),
        if_neg (not_lt.mpr hmig), if_neg (not_lt.mpr ho2), if_neg (not_lt.mpr hglu),
        if_neg (not_lt.mpr hcp), if_neg (not_lt.mpr hth), if_neg (not_lt.mpr hmpi)]
    rfl

theorem C6_witness :
    (validateSimulationParameters { validParams with mutation_rate := mkRat 3 2 } "x" =
       (false, "Mutation rate must be between 0 and 1")) ∧
    (validateSimulationParameters { validParams with mutation_rate := 1 } "x" = (true, "x")) ∧
    (validateSimulationParameters validParams "x" = (true, "x")) :=
  ⟨(C6_mutation_rate_bounds { validParams with mutation_rate := mkRat 3 2 } "x"
      (by decide) (by decide) (by decide) (by decide) (by decide) (by decide) (by decide)
      (by decide) (by decide) (by decide) (by decide) (by decide) (by decide) (by decide)
      (by decide)).1
      (by rw [Rat.mkRat_eq_divInt, Rat.divInt_eq_div]; norm_num),
   (C6_mutation_rate_bounds { validParams with mutation_rate := 1 } "x"
      (by decide) (by decide) (by decide) (by decide) (by decide) (by decide) (by decide)
      (by decide) (by decide) (by decide) (by decide) (by decide) (by decide) (by decide)
      (by decide)).2.1 rfl,
   (C6_mutation_rate_bounds validParams "x"
      (by decide) (by decide) (by decide) (by decide) (by decide) (by decide) (by decide)
      (by decide) (by decide) (by decide) (by decide) (by decide) (by decide) (by decide)
      (by decide)).2.2 rfl⟩

/-- C4: the three presence flags hold exactly when the sub-message is set and
carries a non-empty archive payload, at least one mutation record, or a
non-empty BAM or FASTQ payload, respectively; with no source present the
bundle is rejected with the at-least-one-source message. -/
theorem C4_presence_flags (data : PatientData) (e : String) :
    (hasDicom data = true ↔ ∃ d, data.dicom = some d ∧ d.dicom_archive ≠ "") ∧
    (hasVcf data = true ↔ ∃ v, data.vcf = some v ∧ 0 < v.mutations_size) ∧
    (hasGenomic data = true ↔ ∃ g, data.genomic_sequences = some g ∧
       (g.bam_data ≠ "" ∨ g.fastq_data ≠ "")) ∧
    (hasDicom data = false → hasVcf data = false → hasGenomic data = false →
      validatePatientData data e =
        (false, "At least one data source (DICOM, VCF, or genomic sequences) is required")) := by
  refine ⟨?_, ?_, ?_, ?_⟩
  · cases h : data.dicom <;>
      simp [hasDicom, h, Bool.eq_false_iff, String.isEmpty_iff]
  · cases h : data.vcf <;> simp [hasVcf, h]
  · cases h : data.genomic_sequences <;>
      simp [hasGenomic, h, Bool.eq_false_iff, String.isEmpty_iff]
  · intro h1 h2 h3
    rw [vpd_eq_verdict]
    unfold codePDVerdict
    rw [h1, h2, h3]
    rfl

theorem C4_witness :
    (hasDicom validPD = true ∧ (validPD.dicom.getD default).dicom_archive ≠ "") ∧
    validatePatientData emptyPD "x" =
      (false, "At least one data source (DICOM, VCF, or genomic sequences) is required") :=
  ⟨⟨by decide, by decide⟩,
   (C4_presence_flags emptyPD "x").2.2.2 (by decide) (by decide) (by decide)⟩

/-- C5: with at least one source present, each present source must carry a
non-empty identifier; the first failure in DICOM, VCF, genomic order is the
reason returned, and when every present source carries its identifier the
bundle is accepted. -/
theorem C5_source_id_checks (data : PatientData) (e : String)
    (hA : (hasDicom data || hasVcf data || hasGenomic data) = true) :
    (hasDicom data = true → (data.dicom.getD default).patient_id = "" →
      validatePatientData data e = (false, "DICOM patient ID is required")) ∧
    ((hasDicom data = true → (data.dicom.getD default).patient_id ≠ "") →
      hasVcf data = true → (data.vcf.getD default).sample_id = "" →
      validatePatientData data e = (false, "VCF sample ID is required")) ∧
    ((hasDicom data = true → (data.dicom.getD default).patient_id ≠ "") →
      (hasVcf data = true → (data.vcf.getD default).sample_id ≠ "") →
      hasGenomic data = true → (data.genomic_sequences.getD default).sample_id = "" →
      validatePatientData data e = (false, "Genomic sequence sample ID is required")) ∧
    ((hasDicom data = true → (data.dicom.getD default).patient_id ≠ "") →
      (hasVcf data = true → (data.vcf.getD default).sample_id ≠ "") →
      (hasGenomic data = true → (data.genomic_sequences.getD default).sample_id ≠ "") →
      validatePatientData data e = (true, e)) := by
  have hc1 : (!hasDicom data && !hasVcf data && !hasGenomic data) = false := by
    revert hA
    cases hasDicom data <;> cases hasVcf data <;> cases hasGenomic data <;> simp
  refine ⟨?_, ?_, ?_, ?_⟩
  · intro hd hemp
    rw [vpd_eq_verdict]
    simp [codePDVerdict, hc1, hd, hemp, String.isEmpty_iff]
  · intro hdok hv hvemp
    have hc2 : (hasDicom data && (data.dicom.getD default).patient_id.isEmpty) = false := by
      cases hD : hasDicom data with
      | false => simp
      | true =>
        simp only [Bool.true_and, Bool.eq_false_iff, ne_eq, String.isEmpty_iff]
        exact hdok hD
    rw [vpd_eq_verdict]
    simp [codePDVerdict, hc1, hc2, hv, hvemp, String.isEmpty_iff]
  · intro hdok hvok hg hgemp
    have hc2 : (hasDicom data && (data.dicom.getD default).patient_id.isEmpty) = false := by
      cases hD : hasDicom data with
      | false => simp
      | true =>
        simp only [Bool.true_and, Bool.eq_false_iff, ne_eq, String.isEmpty_iff]
        exact hdok hD
    have hc3 : (hasVcf data && (data.vcf.getD default).sample_id.isEmpty) = false := by
      cases hV : hasVcf data with
      | false => simp
      | true =>
        simp only [Bool.true_and, Bool.eq_false_iff, ne_eq, String.isEmpty_iff]
        exact hvok hV
    rw [vpd_eq_verdict]
    simp [codePDVerdict, hc1, hc2, hc3, hg, hgemp, String.isEmpty_iff]
  · intro hdok hvok hgok
    have hc2 : (hasDicom data && (data.dicom.getD default).patient_id.isEmpty) = false := by
      cases hD : hasDicom data with
      | false => simp
      | true =>
        simp only [Bool.true_and, Bool.eq_false_iff, ne_eq, String.isEmpty_iff]
        exact hdok hD
    have hc3 : (hasVcf data && (data.vcf.getD default).sample_id.isEmpty) = false := by
      cases hV : hasVcf data with
      | false => simp
      | true =>
        simp only [Bool.true_and, Bool.eq_false_iff, ne_eq, String.isEmpty_iff]
        exact hvok hV
    have hc4 : (hasGenomic data &&
        (data.genomic_sequences.getD default).sample_id.isEmpty) = false := by
      cases hG : hasGenomic data with
      | false => simp
      | true =>
        simp only [Bool.true_and, Bool.eq_false_iff, ne_eq, String.isEmpty_iff]
        exact hgok hG
    rw [vpd_eq_verdict]
    simp [codePDVerdict, hc1, hc2, hc3, hc4]

theorem C5_witness :
    validatePatientData pdDicomNoId "x" = (false, "DICOM patient ID is required") ∧
    validatePatientData pdVcfNoId "x" = (false, "VCF sample ID is required") ∧
    validatePatientData pdGenomicNoId "x" = (false, "Genomic sequence sample ID is required") ∧
    validatePatientData validPD "x" = (true, "x") :=
  ⟨(C5_source_id_checks pdDicomNoId "x" (by decide)).1 (by decide) (by decide),
   (C5_source_id_checks pdVcfNoId "x" (by decide)).2.1 (by decide) (by decide) (by decide),
   (C5_source_id_checks pdGenomicNoId "x" (by decide)).2.2.1 (by decide) (by decide)
     (by decide) (by decide),
   (C5_source_id_checks validPD "x" (by decide)).2.2.2 (by decide) (by decide) (by decide)⟩

theorem vsr_true_iff (r : SimulationRequest) (e : String) :
    (validateSimulationRequest r e).1 = true ↔ codeReqVerdict r = none := by
  rw [vsr_eq_verdict]
  cases h : codeReqVerdict r <;> simp

theorem hasDicom_setDicom (d : PatientData) (s : String) :
    hasDicom (setDicomPatientId d s) = hasDicom d := by
  unfold hasDicom setDicomPatientId
  cases h : d.dicom <;> simp [h]

theorem hasVcf_setDicom (d : PatientData) (s : String) :
    hasVcf (setDicomPatientId d s) = hasVcf d := by
  unfold hasVcf setDicomPatientId
  cases h : d.dicom <;> simp [h]

theorem hasGenomic_setDicom (d : PatientData) (s : String) :
    hasGenomic (setDicomPatientId d s) = hasGenomic d := by
  unfold hasGenomic setDicomPatientId
  cases h : d.dicom <;> simp [h]

theorem codePDVerdict_none_iff (d : PatientData) :
    codePDVerdict d = none ↔
      (!hasDicom d && !hasVcf d && !hasGenomic d) = false ∧
      (hasDicom d && (d.dicom.getD default).patient_id.isEmpty) = false ∧
      (hasVcf d && (d.vcf.getD default).sample_id.isEmpty) = false ∧
      (hasGenomic d && (d.genomic_sequences.getD default).sample_id.isEmpty) = false := by
  unfold codePDVerdict
  cases h1 : (!hasDicom d && !hasVcf d && !hasGenomic d) <;>
    cases h2 : (hasDicom d && (d.dicom.getD default).patient_id.isEmpty) <;>
      cases h3 : (hasVcf d && (d.vcf.getD default).sample_id.isEmpty) <;>
        cases h4 : (hasGenomic d && (d.genomic_sequences.getD default).sample_id.isEmpty) <;>
          simp [h1, h2, h3, h4]

theorem codePDVerdict_setDicom_none (d : PatientData) (s : String)
    (h : codePDVerdict d = none) (hs : s ≠ "") :
    codePDVerdict (setDicomPatientId d s) = none := by
  rw [codePDVerdict_none_iff] at h ⊢
  obtain ⟨h1, h2, h3, h4⟩ := h
  refine ⟨?_, ?_, ?_, ?_⟩
  · rw [hasDicom_setDicom, hasVcf_setDicom, hasGenomic_setDicom]
    exact h1
  · rw [hasDicom_setDicom]
    cases hd : d.dicom with
    | none =>
      have hf : hasDicom d = false := by simp [hasDicom, hd]
      rw [hf, Bool.false_and]
    | some dd =>
      have hid : ((setDicomPatientId d s).dicom.getD default).patient_id = s := by
        simp [setDicomPatientId, hd]
      rw [hid]
      have hse : s.isEmpty = false := by
        rw [Bool.eq_false_iff]
        intro hc
        exact hs ((String.isEmpty_iff s).mp hc)
      rw [hse, Bool.and_false]
  · exact h3
  · exact h4

/-- C7: validation performs no cross-field consistency check between
identifiers: the verdict depends on the top-level patient identifier and on
each per-source identifier only through emptiness, and a fully valid request
stays valid when its DICOM patient identifier is replaced by any non-empty
string, in particular one differing from the top-level patient identifier. -/
theorem C7_no_cross_field_check (r : SimulationRequest) (data : PatientData) (e : String) :
    (forall s sX, s.isEmpty = sX.isEmpty →
      validateSimulationRequest (setRequestPatientId r s) e =
        validateSimulationRequest (setRequestPatientId r sX) e) ∧
    (forall s sX, s.isEmpty = sX.isEmpty →
      validatePatientData (setDicomPatientId data s) e =
        validatePatientData (setDicomPatientId data sX) e) ∧
    (forall s sX, s.isEmpty = sX.isEmpty →
      validatePatientData (setVcfSampleId data s) e =
        validatePatientData (setVcfSampleId data sX) e) ∧
    (forall s sX, s.isEmpty = sX.isEmpty →
      validatePatientData (setGenomicSampleId data s) e =
        validatePatientData (setGenomicSampleId data sX) e) ∧
    (forall s, (validateSimulationRequest r e).1 = true → s ≠ "" →
      validateSimulationRequest (setRequestDicomPatientId r s) e = (true, e)) := by
  refine ⟨?_, ?_, ?_, ?_, ?_⟩
  · intro s sX hss
    rw [vsr_eq_verdict, vsr_eq_verdict]
    unfold codeReqVerdict setRequestPatientId
    dsimp only
    rw [hss]
  · intro s sX hss
    apply validatePatientData_congr
    unfold pdKey
    cases hd : data.dicom with
    | none => simp [setDicomPatientId, hd]
    | some dd => simp [setDicomPatientId, hasDicom, hasVcf, hasGenomic, hd, hss]
  · intro s sX hss
    apply validatePatientData_congr
    unfold pdKey
    cases hv : data.vcf with
    | none => simp [setVcfSampleId, hv]
    | some vv => simp [setVcfSampleId, hasDicom, hasVcf, hasGenomic, hv, hss]
  · intro s sX hss
    apply validatePatientData_congr
    unfold pdKey
    cases hg : data.genomic_sequences with
    | none => simp [setGenomicSampleId, hg]
    | some gg => simp [setGenomicSampleId, hasDicom, hasVcf, hasGenomic, hg, hss]
  · intro s h hs
    rw [vsr_true_iff] at h
    have hnew : codeReqVerdict (setRequestDicomPatientId r s) = none := by
      unfold codeReqVerdict at h ⊢
      unfold setRequestDicomPatientId
      dsimp only
      by_cases hid : r.patient_id.isEmpty
      · rw [if_pos hid] at h
        exact absurd h (by simp)
      · rw [if_neg hid] at h ⊢
        cases hd : r.data with
        | none =>
          rw [hd] at h
          exact absurd h (by simp)
        | some d =>
          rw [hd] at h
          simp only [Option.elim_some] at h
          simp only [Option.map_some', Option.elim_some]
          cases hpd : codePDVerdict d with
          | some m =>
            rw [hpd] at h
            exact absurd h (by simp)
          | none =>
            rw [hpd] at h
            simp only [Option.elim_none] at h
            rw [codePDVerdict_setDicom_none d s hpd hs]
            simp only [Option.elim_none]
            exact h
    rw [vsr_eq_verdict, hnew]
    rfl

theorem C7_witness :
    validateSimulationRequest (setRequestDicomPatientId validReq "not_p1") "x" = (true, "x") ∧
    "not_p1" ≠ validReq.patient_id :=
  ⟨(C7_no_cross_field_check validReq validPD "x").2.2.2.2 "not_p1" (by decide) (by decide),
   by decide⟩

end TumorDTwin
